import Mathlib

/-
  Shallow embedding of src/robot_builder.py, a Builder-pattern demo.

  Modelling decisions:
  - Python None-or-int attribute values are Option Nat, None-or-bool values
    are Option Bool, None-or-string values are Option String.
  - Traversal and DetectionSystems declare their defaults as CLASS-level
    attributes (lines 48-56).  Per Python attribute semantics, reading
    obj.attr falls back to the class attribute when the instance dict has
    no entry, while obj.attr = v always writes the instance dict.  We model
    this with an explicit class-state record (Classes) threaded through
    every method, instance dicts whose entries are Option (Option _)
    (outer none = no instance-dict entry), and read helpers that perform
    the two-level lookup.
  - Methods are state transformers: they take and return the class state
    and the mutated object, plus the Python return value.
  - Robot.__str__ applies .upper() to product_type; when product_type is
    None this raises AttributeError, modelled as a none result.
-/

namespace RobotBuilderPy

/-- Uppercasing of ASCII letters, as Python str.upper behaves on the
type-label strings occurring in the program. -/
def pyUpper (s : String) : String :=
  ⟨s.data.map (fun c => if 'a' ≤ c ∧ c ≤ 'z' then Char.ofNat (c.toNat - 32) else c)⟩

/-- Python truthiness of a None-or-bool value: None is falsy. -/
def pyTruthy : Option Bool → Bool
  | some b => b
  | none => false

/-- Python str.format rendering of a None-or-int value. -/
def fmtPart : Option Nat → String
  | none => "None"
  | some n => toString n

/-- Whether pat occurs at the head of s. -/
def matchesAt : List Char → List Char → Bool
  | [], _ => true
  | _ :: _, [] => false
  | p :: ps, c :: cs => p == c && matchesAt ps cs

/-- Whether pat occurs anywhere in s. -/
def containsChars (pat : List Char) : List Char → Bool
  | [] => matchesAt pat []
  | c :: cs => matchesAt pat (c :: cs) || containsChars pat cs

/-- Substring test on strings. -/
def strContains (s pat : String) : Bool :=
  containsChars pat.data s.data

/-- Substring test on an optional render result; a failed render contains
nothing. -/
def ostrContains (o : Option String) (pat : String) : Bool :=
  match o with
  | none => false
  | some s => strContains s pat

/-- Class-level attribute values of class Traversal (lines 48-52): every
default is None. -/
structure TraversalCls where
  leg : Option Nat := none
  arm : Option Nat := none
  wing : Option Nat := none
  wheel : Option Nat := none
  deriving DecidableEq

/-- Class-level attribute values of class DetectionSystems (lines 54-56). -/
structure DetectionSystemsCls where
  camera : Option Bool := none
  infrared : Option Bool := none
  deriving DecidableEq

/-- The mutable class-level state shared by all instances. -/
structure Classes where
  traversalCls : TraversalCls
  detectionSystemsCls : DetectionSystemsCls
  deriving DecidableEq

/-- The class state as the class bodies define it: all attributes None. -/
def Classes.init : Classes := ⟨{}, {}⟩

/-- A Traversal instance: its instance dict.  An entry of none means the
attribute was never assigned on this instance, so reads fall back to the
class-level value. -/
structure Traversal where
  leg : Option (Option Nat) := none
  arm : Option (Option Nat) := none
  wing : Option (Option Nat) := none
  wheel : Option (Option Nat) := none
  deriving DecidableEq

/-- A DetectionSystems instance: its instance dict. -/
structure DetectionSystems where
  camera : Option (Option Bool) := none
  infrared : Option (Option Bool) := none
  deriving DecidableEq

/-- Python attribute read t.leg: instance dict first, then class. -/
def Traversal.readLeg (w : Classes) (t : Traversal) : Option Nat :=
  t.leg.getD w.traversalCls.leg

/-- Python attribute read t.arm. -/
def Traversal.readArm (w : Classes) (t : Traversal) : Option Nat :=
  t.arm.getD w.traversalCls.arm

/-- Python attribute read t.wing. -/
def Traversal.readWing (w : Classes) (t : Traversal) : Option Nat :=
  t.wing.getD w.traversalCls.wing

/-- Python attribute read t.wheel. -/
def Traversal.readWheel (w : Classes) (t : Traversal) : Option Nat :=
  t.wheel.getD w.traversalCls.wheel

/-- Python attribute read d.camera. -/
def DetectionSystems.readCamera (w : Classes) (d : DetectionSystems) : Option Bool :=
  d.camera.getD w.detectionSystemsCls.camera

/-- Python attribute read d.infrared. -/
def DetectionSystems.readInfrared (w : Classes) (d : DetectionSystems) : Option Bool :=
  d.infrared.getD w.detectionSystemsCls.infrared

/-- The product (class Robot, lines 4-16): product_type plus one owned
Traversal and one owned DetectionSystems instance. -/
structure Robot where
  product_type : Option String
  traversal : Traversal
  detection_systems : DetectionSystems
  deriving DecidableEq

/-- Robot.__init__ (lines 5-16): product_type = None and two fresh
component instances with empty instance dicts. -/
def Robot.init : Robot := ⟨none, {}, {}⟩

/-- Robot.set_type (lines 18-22): overwrites product_type with any value. -/
def Robot.set_type (r : Robot) (p_type : Option String) : Robot :=
  { r with product_type := p_type }

/-- Robot.__str__ (lines 24-36) as a state transformer.  When product_type
is None, self.product_type.upper() raises AttributeError, modelled as a
none result; otherwise the multi-line summary is built, reading the
traversal and detection attributes through the two-level lookup. -/
def Robot.strM (w : Classes) (r : Robot) : (Classes × Robot) × Option String :=
  match r.product_type with
  | none => ((w, r), none)
  | some t =>
    let s := "\n" ++ pyUpper t
    let s := s ++ "\nTraversal modules:"
    let s := s ++ "\n-" ++ fmtPart (Traversal.readArm w r.traversal) ++ " arm(s)"
      ++ "\n-" ++ fmtPart (Traversal.readLeg w r.traversal) ++ " leg(s)"
      ++ "\n-" ++ fmtPart (Traversal.readWheel w r.traversal) ++ " wheel(s)"
      ++ "\n-" ++ fmtPart (Traversal.readWing w r.traversal) ++ " wing(s)"
    let s := s ++ "\nDetection systems:"
    let s := s ++ "\n-"
      ++ (if pyTruthy (DetectionSystems.readCamera w r.detection_systems)
          then "There are" else "There aren\x27t any") ++ " camera(s)"
      ++ "\n-"
      ++ (if pyTruthy (DetectionSystems.readInfrared w r.detection_systems)
          then "There are" else "There aren\x27t any") ++ " infrared(s)"
    ((w, r), some s)

/-- The two concrete builder classes of the source. -/
inductive Archetype
  | android
  | autonomousCar
  deriving DecidableEq

/-- A builder object: its concrete class plus the one owned in-progress
Robot. -/
structure Builder where
  archetype : Archetype
  product : Robot
  deriving DecidableEq

/-- RobotBuilder.__init__ (lines 66-67): a fresh builder owns a fresh
Robot. -/
def RobotBuilder.init (a : Archetype) : Builder := ⟨a, Robot.init⟩

/-- RobotBuilder.reset (lines 69-70): discards the current Robot and
allocates a new empty one. -/
def RobotBuilder.reset (b : Builder) : Builder := { b with product := Robot.init }

/-- RobotBuilder.get_product (lines 72-73): returns the current Robot. -/
def RobotBuilder.get_product (b : Builder) : Robot := b.product

/-- get_type, dispatched on the concrete class (lines 97-101 and 115-119):
sets the owned product_type to the archetype label and returns None (the
method body has no return statement). -/
def Builder.get_type (w : Classes) (b : Builder) : (Classes × Builder) × Option String :=
  match b.archetype with
  | .android =>
    ((w, { b with product := { b.product with product_type := some "Bipedal Robot" } }), none)
  | .autonomousCar =>
    ((w, { b with product := { b.product with product_type := some "Robot on Wheels" } }), none)

/-- build_traversal, dispatched on the concrete class (lines 103-107 and
121-126): assigns instance attributes on the owned traversal and returns
that traversal instance. -/
def Builder.build_traversal (w : Classes) (b : Builder) : (Classes × Builder) × Traversal :=
  match b.archetype with
  | .android =>
    let t := b.product.traversal
    let t := { t with arm := some (some 2) }
    let t := { t with leg := some (some 2) }
    ((w, { b with product := { b.product with traversal := t } }), t)
  | .autonomousCar =>
    let t := b.product.traversal
    let t := { t with arm := some (some 2) }
    let t := { t with leg := some (some 2) }
    let t := { t with wheel := some (some 4) }
    ((w, { b with product := { b.product with traversal := t } }), t)

/-- build_detection_system, dispatched on the concrete class (lines
109-112 and 128-132): assigns instance attributes on the owned detection
systems and returns that instance. -/
def Builder.build_detection_system (w : Classes) (b : Builder) :
    (Classes × Builder) × DetectionSystems :=
  match b.archetype with
  | .android =>
    let d := b.product.detection_systems
    let d := { d with camera := some (some true) }
    ((w, { b with product := { b.product with detection_systems := d } }), d)
  | .autonomousCar =>
    let d := b.product.detection_systems
    let d := { d with camera := some (some true) }
    let d := { d with infrared := some (some true) }
    ((w, { b with product := { b.product with detection_systems := d } }), d)

/-- Director.construct (lines 138-149): creates a local Robot, calls
get_type on the builder and assigns its return value (always None) to the
local Robot, runs the remaining steps, and returns the builder product.
The local Robot is never used afterwards. -/
def Director.construct (w : Classes) (b : Builder) : (Classes × Builder) × Robot :=
  let robot := Robot.init
  let res1 := Builder.get_type w b
  let w := res1.1.1
  let b := res1.1.2
  let construct_type := res1.2
  let robot := Robot.set_type robot construct_type
  let res2 := Builder.build_traversal w b
  let w := res2.1.1
  let b := res2.1.2
  let res3 := Builder.build_detection_system w b
  let w := res3.1.1
  let b := res3.1.2
  ((w, b), RobotBuilder.get_product b)

/-- Director.construct with the dead local Robot and its set_type call
omitted, as the spec says an implementer may do. -/
def Director.constructNoLocal (w : Classes) (b : Builder) : (Classes × Builder) × Robot :=
  let res1 := Builder.get_type w b
  let w := res1.1.1
  let b := res1.1.2
  let res2 := Builder.build_traversal w b
  let w := res2.1.1
  let b := res2.1.2
  let res3 := Builder.build_detection_system w b
  let w := res3.1.1
  let b := res3.1.2
  ((w, b), RobotBuilder.get_product b)

/-- main (lines 151-158): constructs an AndroidBuilder product and prints
it, then an AutonomousCarBuilder product and prints it.  The printed
renderings are collected in order; a none entry would be a render that
raised. -/
def main (w : Classes) : Classes × List (Option String) :=
  let android := RobotBuilder.init Archetype.android
  let c1 := Director.construct w android
  let w := c1.1.1
  let p1 := Robot.strM w c1.2
  let w := p1.1.1
  let out1 := p1.2
  let autonomous := RobotBuilder.init Archetype.autonomousCar
  let c2 := Director.construct w autonomous
  let w := c2.1.1
  let p2 := Robot.strM w c2.2
  let w := p2.1.1
  let out2 := p2.2
  (w, [out1, out2])

/-- The observable fields of a product, each read through the Python
two-level attribute lookup. -/
structure RobotView where
  product_type : Option String
  arm : Option Nat
  leg : Option Nat
  wheel : Option Nat
  wing : Option Nat
  camera : Option Bool
  infrared : Option Bool
  deriving DecidableEq

/-- Observe every field of a Robot under a given class state. -/
def Robot.view (w : Classes) (r : Robot) : RobotView :=
  ⟨r.product_type,
   Traversal.readArm w r.traversal,
   Traversal.readLeg w r.traversal,
   Traversal.readWheel w r.traversal,
   Traversal.readWing w r.traversal,
   DetectionSystems.readCamera w r.detection_systems,
   DetectionSystems.readInfrared w r.detection_systems⟩

/-- A Robot whose product_type has been set, used to exhibit concrete
renderings. -/
def typedRobot : Robot := Robot.set_type Robot.init (some "Bipedal Robot")

/-- String append distributes to the underlying character lists. -/
theorem data_append_eq (a b : String) : (a ++ b).data = a.data ++ b.data := rfl

/-- A pattern matching at the head of a list occurs in it. -/
theorem containsChars_of_matchesAt (pat s : List Char) (h : matchesAt pat s = true) :
    containsChars pat s = true := by
  cases s with
  | nil => simpa [containsChars] using h
  | cons c cs => simp [containsChars, h]

/-- Occurrence is preserved by prepending one character. -/
theorem containsChars_cons_of (pat : List Char) (c : Char) (cs : List Char)
    (h : containsChars pat cs = true) : containsChars pat (c :: cs) = true := by
  simp [containsChars, h]

/-- Occurrence is preserved by prepending a list. -/
theorem containsChars_append_left (pre pat s : List Char)
    (h : containsChars pat s = true) : containsChars pat (pre ++ s) = true := by
  induction pre with
  | nil => simpa using h
  | cons c cs ih => simp [containsChars, ih]

/-- Claim C1: after Director.construct on a fresh AndroidBuilder the
product has the non-empty type label Bipedal Robot, arm = 2, leg = 2,
wheel and wing unset, camera = true and infrared unset, exactly as the
archetype table states. -/
theorem C1_android_archetype :
    Robot.view Classes.init
        (Director.construct Classes.init (RobotBuilder.init Archetype.android)).2
      = ⟨some "Bipedal Robot", some 2, some 2, none, none, some true, none⟩
    ∧ (Director.construct Classes.init (RobotBuilder.init Archetype.android)).2.product_type
      ≠ some "" := by
  exact ⟨rfl, by decide⟩

/-- Claim C2: after Director.construct on a fresh AutonomousCarBuilder the
product has the non-empty type label Robot on Wheels, arm = 2, leg = 2,
wheel = 4, wing unset, camera = true and infrared = true. -/
theorem C2_autonomous_car_archetype :
    Robot.view Classes.init
        (Director.construct Classes.init (RobotBuilder.init Archetype.autonomousCar)).2
      = ⟨some "Robot on Wheels", some 2, some 2, some 4, none, some true, some true⟩
    ∧ (Director.construct Classes.init (RobotBuilder.init Archetype.autonomousCar)).2.product_type
      ≠ some "" := by
  exact ⟨rfl, by decide⟩

/-- Claim C3 counterexample: rendering the entirely uninitialized Robot
does raise, because the case conversion is applied to the None
product_type; the render result is a failure, not a placeholder string. -/
theorem C3_unset_type_render_fails :
    (Robot.strM Classes.init Robot.init).2 = none := rfl

set_option maxRecDepth 8192 in
/-- Claim C3 amended: when product_type is set, rendering never fails,
each unset traversal field renders as the visible placeholder None, and
each unset detection field renders as the absence phrasing; but a Robot
whose product_type is unset makes the rendering raise on the case
conversion instead of producing a placeholder string. -/
theorem C3_amended_render (w : Classes) (r : Robot) (t : String)
    (h : r.product_type = some t) :
    ((Robot.strM w r).2).isSome = true
    ∧ (Traversal.readArm w r.traversal = none →
        ostrContains (Robot.strM w r).2 "None arm(s)" = true)
    ∧ (Traversal.readLeg w r.traversal = none →
        ostrContains (Robot.strM w r).2 "None leg(s)" = true)
    ∧ (Traversal.readWheel w r.traversal = none →
        ostrContains (Robot.strM w r).2 "None wheel(s)" = true)
    ∧ (Traversal.readWing w r.traversal = none →
        ostrContains (Robot.strM w r).2 "None wing(s)" = true)
    ∧ (DetectionSystems.readCamera w r.detection_systems = none →
        ostrContains (Robot.strM w r).2 "There aren\x27t any camera(s)" = true)
    ∧ (DetectionSystems.readInfrared w r.detection_systems = none →
        ostrContains (Robot.strM w r).2 "There aren\x27t any infrared(s)" = true)
    ∧ (Robot.strM Classes.init Robot.init).2 = none := by
  obtain ⟨pt, tr, ds⟩ := r
  cases h
  refine ⟨rfl, ?_, ?_, ?_, ?_, ?_, ?_, rfl⟩ <;> intro hu <;>
    simp only [Robot.strM, ostrContains, strContains, hu, fmtPart, pyTruthy,
      data_append_eq, List.append_assoc, Bool.false_eq_true, if_false, reduceIte] <;>
    repeat first
      | exact containsChars_of_matchesAt _ _ rfl
      | apply containsChars_cons_of
      | apply containsChars_append_left

/-- Witness for the amended claim C3 at a concrete robot. -/
theorem C3_amended_render_witness :
    ((Robot.strM Classes.init typedRobot).2).isSome = true
    ∧ (Traversal.readArm Classes.init typedRobot.traversal = none →
        ostrContains (Robot.strM Classes.init typedRobot).2 "None arm(s)" = true)
    ∧ (Traversal.readLeg Classes.init typedRobot.traversal = none →
        ostrContains (Robot.strM Classes.init typedRobot).2 "None leg(s)" = true)
    ∧ (Traversal.readWheel Classes.init typedRobot.traversal = none →
        ostrContains (Robot.strM Classes.init typedRobot).2 "None wheel(s)" = true)
    ∧ (Traversal.readWing Classes.init typedRobot.traversal = none →
        ostrContains (Robot.strM Classes.init typedRobot).2 "None wing(s)" = true)
    ∧ (DetectionSystems.readCamera Classes.init typedRobot.detection_systems = none →
        ostrContains (Robot.strM Classes.init typedRobot).2 "There aren\x27t any camera(s)" = true)
    ∧ (DetectionSystems.readInfrared Classes.init typedRobot.detection_systems = none →
        ostrContains (Robot.strM Classes.init typedRobot).2 "There aren\x27t any infrared(s)" = true)
    ∧ (Robot.strM Classes.init Robot.init).2 = none :=
  C3_amended_render Classes.init typedRobot "Bipedal Robot" rfl

/-- Claim C4: main prints exactly two renderings, Android first and then
AutonomousCar, both successful; the Android rendering contains BIPEDAL
ROBOT, 2 arm(s), 2 leg(s) and There are adjacent to camera(s), and the
AutonomousCar rendering contains ROBOT ON WHEELS, 4 wheel(s) and There are
adjacent to both camera(s) and infrared(s). -/
theorem C4_main_end_to_end :
    (main Classes.init).2.length = 2
    ∧ ((main Classes.init).2.all Option.isSome) = true
    ∧ ostrContains ((main Classes.init).2.getD 0 none) "BIPEDAL ROBOT" = true
    ∧ ostrContains ((main Classes.init).2.getD 0 none) "2 arm(s)" = true
    ∧ ostrContains ((main Classes.init).2.getD 0 none) "2 leg(s)" = true
    ∧ ostrContains ((main Classes.init).2.getD 0 none) "There are camera(s)" = true
    ∧ ostrContains ((main Classes.init).2.getD 1 none) "ROBOT ON WHEELS" = true
    ∧ ostrContains ((main Classes.init).2.getD 1 none) "4 wheel(s)" = true
    ∧ ostrContains ((main Classes.init).2.getD 1 none) "There are camera(s)" = true
    ∧ ostrContains ((main Classes.init).2.getD 1 none) "There are infrared(s)" = true := by
  refine ⟨rfl, rfl, ?_, ?_, ?_, ?_, ?_, ?_, ?_, ?_⟩ <;> decide

/-- Claim C5: Director.construct returns exactly the Robot that
get_product yields on the builder state after the steps ran: the returned
product is the builder own shared instance, so further build steps on the
same builder state operate on that very robot. -/
theorem C5_construct_returns_shared_product (w : Classes) (b : Builder) :
    (Director.construct w b).2
      = RobotBuilder.get_product (Director.construct w b).1.2 := by
  obtain ⟨a, p⟩ := b
  cases a <;> rfl

/-- Claim C6: the local Robot created inside Director.construct and the
set_type call on it have no effect: construct agrees everywhere with the
variant that omits them. -/
theorem C6_local_robot_dead_code (w : Classes) (b : Builder) :
    Director.construct w b = Director.constructNoLocal w b := by
  obtain ⟨a, p⟩ := b
  cases a <;> rfl

/-- Claim C7: reset on any builder in any state yields a Robot with
product_type unset and all traversal and detection fields unset, and reset
is idempotent in effect. -/
theorem C7_reset_empty (b : Builder) :
    Robot.view Classes.init (RobotBuilder.get_product (RobotBuilder.reset b))
      = ⟨none, none, none, none, none, none, none⟩
    ∧ RobotBuilder.reset (RobotBuilder.reset b) = RobotBuilder.reset b := by
  obtain ⟨a, p⟩ := b
  exact ⟨rfl, rfl⟩

/-- Claim C8: rendering is a pure read: it leaves the class state and the
robot unchanged, and rendering twice in sequence yields the same output
both times. -/
theorem C8_render_idempotent (w : Classes) (r : Robot) :
    (Robot.strM w r).1 = (w, r)
    ∧ (Robot.strM (Robot.strM w r).1.1 (Robot.strM w r).1.2).2 = (Robot.strM w r).2 := by
  obtain ⟨pt, tr, ds⟩ := r
  cases pt <;> exact ⟨rfl, rfl⟩

/-- Claim C9: running Director.construct on one builder leaves the shared
class-level defaults unchanged, so every observable field of any other
builder product is untouched: the build steps write instance attributes
only, never the class-level state. -/
theorem C9_instances_independent (w : Classes) (b1 b2 : Builder) :
    (Director.construct w b2).1.1 = w
    ∧ Robot.view (Director.construct w b2).1.1 (RobotBuilder.get_product b1)
      = Robot.view w (RobotBuilder.get_product b1) := by
  obtain ⟨a2, p2⟩ := b2
  cases a2 <;> exact ⟨rfl, rfl⟩

/-- Claim C10: running Director.construct a second time on the builder
state left by the first run, without a reset in between, returns a product
equal to the first one: every build step only overwrites fields with the
same fixed literals. -/
theorem C10_construct_idempotent (w : Classes) (b : Builder) :
    (Director.construct (Director.construct w b).1.1 (Director.construct w b).1.2).2
      = (Director.construct w b).2 := by
  obtain ⟨a, p⟩ := b
  cases a <;> rfl

end RobotBuilderPy
